import Mathlib

/-!
Verification of the debounced search component in `src/app/ui/search.tsx`.

The component `Search` reads the current URL query parameters (an ordered
list of name/value string pairs, as in the Web `URLSearchParams` API),
debounces keystrokes with a 300 ms quiescence window, and on each committed
search term builds a new parameter list — `page` set to `"1"`, `query` set
to the term when non-empty and deleted when empty — and asks the router to
`replace` the address `pathname ++ "?" ++ params.toString()`.
-/

namespace SearchBox

/-- QueryState: an ordered mapping from parameter name to parameter value,
modelling the Web `URLSearchParams` contents. -/
abbrev QueryState := List (String × String)

/-- `URLSearchParams.delete(k)`: removes every pair whose name is `k`. -/
def deleteParam : QueryState → String → QueryState
  | [], _ => []
  | (k', v') :: rest, k =>
    if k' = k then deleteParam rest k else (k', v') :: deleteParam rest k

/-- `URLSearchParams.set(k, v)`: replaces the value of the first pair named
`k` and drops every later pair named `k`; appends `(k, v)` when no pair is
named `k`. -/
def setParam : QueryState → String → String → QueryState
  | [], k, v => [(k, v)]
  | (k', v') :: rest, k, v =>
    if k' = k then (k, v) :: deleteParam rest k
    else (k', v') :: setParam rest k v

/-- `URLSearchParams.get(k)`: the value of the first pair named `k`, or
`none` when no pair is named `k`. -/
def getParam : QueryState → String → Option String
  | [], _ => none
  | (k', v') :: rest, k => if k' = k then some v' else getParam rest k

/-- All pairs of a QueryState whose name is `k`, in order. -/
def filterKey : QueryState → String → QueryState
  | [], _ => []
  | (k', v') :: rest, k =>
    if k' = k then (k', v') :: filterKey rest k else filterKey rest k

/-- Uppercase hexadecimal digit for `n < 16`. -/
def hexDigit (n : Nat) : Char :=
  if n < 10 then Char.ofNat (48 + n) else Char.ofNat (55 + n)

/-- `application/x-www-form-urlencoded` encoding of one UTF-8 byte, as
`URLSearchParams.toString` performs it: space becomes `+`; ASCII
alphanumerics and `*-._` pass through; every other byte becomes `%XX`. -/
def formEncodeByte (b : Nat) : String :=
  if b = 0x20 then "+"
  else if b = 0x2A ∨ b = 0x2D ∨ b = 0x2E ∨ b = 0x5F
      ∨ (0x30 ≤ b ∧ b ≤ 0x39) ∨ (0x41 ≤ b ∧ b ≤ 0x5A) ∨ (0x61 ≤ b ∧ b ≤ 0x7A)
    then String.singleton (Char.ofNat b)
  else "%" ++ String.singleton (hexDigit (b / 16)) ++ String.singleton (hexDigit (b % 16))

/-- `application/x-www-form-urlencoded` encoding of a string, byte by byte
over its UTF-8 representation. -/
def formEncode (s : String) : String :=
  (s.toUTF8.toList.map fun b => formEncodeByte b.toNat).foldl (· ++ ·) ""

/-- `URLSearchParams.toString()`: `k=v` pairs joined by `&`, names and
values form-urlencoded. -/
def paramsToString (ps : QueryState) : String :=
  String.intercalate "&" (ps.map fun p => formEncode p.1 ++ "=" ++ formEncode p.2)

/-- A navigation request to the router collaborator: `replace` swaps the
current history entry, `push` adds a new one. -/
inductive NavAction where
  | replace (url : String)
  | push (url : String)
deriving DecidableEq, Repr

/-- Effect of a navigation request on the history stack (head is the
current entry): `replace` overwrites the current entry, `push` adds one. -/
def applyNav : NavAction → List String → List String
  | NavAction.replace url, _ :: rest => url :: rest
  | NavAction.replace url, [] => [url]
  | NavAction.push url, hist => url :: hist

/-- The parameter-list computation inside `handleSearch`:
`params.set("page", "1")`, then `params.set("query", term)` when `term` is
truthy (non-empty) and `params.delete("query")` otherwise. -/
def handleSearchParams (searchParams : QueryState) (term : String) : QueryState :=
  let params := setParam searchParams "page" "1"
  if term = "" then deleteParam params "query" else setParam params "query" term

/-- The body of the debounced `handleSearch` callback: builds the new
parameters and requests `replace(pathname ++ "?" ++ params.toString())`. -/
def handleSearch (pathname : String) (searchParams : QueryState) (term : String) : NavAction :=
  NavAction.replace (pathname ++ "?" ++ paramsToString (handleSearchParams searchParams term))

/-- The quiescence window of `useDebouncedCallback`, in milliseconds. -/
def debounceMs : Nat := 300

/-- Trailing-edge debounce over a timestamped event sequence (times
strictly increasing): an event's pending timer fires `debounceMs` after it
unless a later event arrives first and resets the timer; the final event
always fires. Returns the fired commits as (time, value) pairs. -/
def debounceCommits : List (Nat × String) → List (Nat × String)
  | [] => []
  | [(t, v)] => [(t + debounceMs, v)]
  | (t, v) :: (t', v') :: rest =>
    if t + debounceMs ≤ t' then (t + debounceMs, v) :: debounceCommits ((t', v') :: rest)
    else debounceCommits ((t', v') :: rest)

/-- Whether every gap between consecutive events is strictly below the
quiescence window. -/
def rapid : List (Nat × String) → Bool
  | [] => true
  | [_] => true
  | (t, _) :: (t', v') :: rest =>
    decide (t' < t + debounceMs) && rapid ((t', v') :: rest)

/-- Attributes the `Search` component places on its `input` element:
`value = none` means no controlled `value` attribute is present. -/
structure InputProps where
  placeholder : String
  defaultValue : Option String
  value : Option String
deriving DecidableEq, Repr

/-- The `input` element rendered by `Search`: placeholder from the prop,
`defaultValue` from `searchParams.get("query")`, and no `value` attribute
(uncontrolled: the DOM manages the text after mount). -/
def Search (placeholder : String) (searchParams : QueryState) : InputProps :=
  { placeholder := placeholder
    defaultValue := getParam searchParams "query"
    value := none }

/-- Initial displayed text of an uncontrolled input: its `defaultValue`,
or the empty string when that attribute is absent (undefined). -/
def initialDisplayed (props : InputProps) : String :=
  props.defaultValue.getD ""

/-! ### Association-list lemmas about `setParam`, `deleteParam`, `getParam` -/

theorem filterKey_deleteParam_self (ps : QueryState) (k : String) :
    filterKey (deleteParam ps k) k = [] := by
  induction ps with
  | nil => rfl
  | cons p rest ih =>
    obtain ⟨k', v'⟩ := p
    by_cases h : k' = k <;> simp [deleteParam, filterKey, h, ih]

theorem filterKey_deleteParam_ne (ps : QueryState) (k k' : String) (h : k ≠ k') :
    filterKey (deleteParam ps k') k = filterKey ps k := by
  induction ps with
  | nil => rfl
  | cons p rest ih =>
    obtain ⟨k₀, v₀⟩ := p
    by_cases h₀ : k₀ = k'
    · subst h₀
      simp [deleteParam, filterKey, ih, h.symm]
    · by_cases h₁ : k₀ = k <;> simp [deleteParam, filterKey, h₀, h₁, h, ih]

theorem filterKey_setParam_self (ps : QueryState) (k v : String) :
    filterKey (setParam ps k v) k = [(k, v)] := by
  induction ps with
  | nil => simp [setParam, filterKey]
  | cons p rest ih =>
    obtain ⟨k₀, v₀⟩ := p
    by_cases h : k₀ = k <;>
      simp [setParam, filterKey, h, ih, filterKey_deleteParam_self]

theorem filterKey_setParam_ne (ps : QueryState) (k k' v : String) (h : k ≠ k') :
    filterKey (setParam ps k' v) k = filterKey ps k := by
  induction ps with
  | nil => simp [setParam, filterKey, h.symm]
  | cons p rest ih =>
    obtain ⟨k₀, v₀⟩ := p
    by_cases h₀ : k₀ = k'
    · subst h₀
      simp [setParam, filterKey, h, h.symm,
        filterKey_deleteParam_ne rest k k₀ h]
    · by_cases h₁ : k₀ = k <;> simp [setParam, filterKey, h₀, h₁, h, ih]

theorem getParam_eq_head_filterKey (ps : QueryState) (k : String) :
    getParam ps k = (filterKey ps k).head?.map Prod.snd := by
  induction ps with
  | nil => rfl
  | cons p rest ih =>
    obtain ⟨k₀, v₀⟩ := p
    by_cases h : k₀ = k <;> simp [getParam, filterKey, h, ih]

theorem deleteParam_of_filterKey_nil (ps : QueryState) (k : String)
    (h : filterKey ps k = []) : deleteParam ps k = ps := by
  induction ps with
  | nil => rfl
  | cons p rest ih =>
    obtain ⟨k₀, v₀⟩ := p
    by_cases h₀ : k₀ = k
    · simp [filterKey, h₀] at h
    · simp [filterKey, h₀] at h
      simp [deleteParam, h₀, ih h]

theorem deleteParam_idem (ps : QueryState) (k : String) :
    deleteParam (deleteParam ps k) k = deleteParam ps k :=
  deleteParam_of_filterKey_nil _ _ (filterKey_deleteParam_self ps k)

theorem setParam_of_filterKey_single (ps : QueryState) (k v : String)
    (h : filterKey ps k = [(k, v)]) : setParam ps k v = ps := by
  induction ps with
  | nil => simp [filterKey] at h
  | cons p rest ih =>
    obtain ⟨k₀, v₀⟩ := p
    by_cases h₀ : k₀ = k
    · subst h₀
      simp [filterKey] at h
      obtain ⟨hv, hrest⟩ := h
      simp [setParam, hv, deleteParam_of_filterKey_nil rest k₀ hrest]
    · simp [filterKey, h₀] at h
      simp [setParam, h₀, ih h]

theorem setParam_idem (ps : QueryState) (k v : String) :
    setParam (setParam ps k v) k v = setParam ps k v :=
  setParam_of_filterKey_single _ _ _ (filterKey_setParam_self ps k v)

/-! ### Claim theorems -/

/-- C1: for every term and prior QueryState, the committed QueryState has
`query = term` (as its unique `query` pair and as `get("query")`) when the
term is non-empty, and no `query` key at all when the term is empty. -/
theorem C1_commit_query (sp : QueryState) (term : String) :
    filterKey (handleSearchParams sp term) "query" =
      (if term = "" then [] else [("query", term)]) ∧
    getParam (handleSearchParams sp term) "query" =
      (if term = "" then none else some term) := by
  unfold handleSearchParams
  by_cases ht : term = "" <;>
    simp [ht, filterKey_deleteParam_self, filterKey_setParam_self,
      getParam_eq_head_filterKey]

/-- C2: for every term and prior QueryState, the committed QueryState has
`page` bound exactly to `"1"`, regardless of any prior `page` value. -/
theorem C2_page_reset (sp : QueryState) (term : String) :
    filterKey (handleSearchParams sp term) "page" = [("page", "1")] ∧
    getParam (handleSearchParams sp term) "page" = some "1" := by
  unfold handleSearchParams
  by_cases ht : term = "" <;>
    simp [ht, filterKey_deleteParam_ne _ _ _ (by decide : ("page" : String) ≠ "query"),
      filterKey_setParam_ne _ _ _ _ (by decide : ("page" : String) ≠ "query"),
      filterKey_setParam_self, getParam_eq_head_filterKey]

/-- C4: a commit leaves every parameter other than `page` and `query`
untouched: the pairs under any other key are exactly those of the prior
QueryState. -/
theorem C4_frame (sp : QueryState) (term : String) (k : String)
    (h₁ : k ≠ "page") (h₂ : k ≠ "query") :
    filterKey (handleSearchParams sp term) k = filterKey sp k := by
  unfold handleSearchParams
  by_cases ht : term = "" <;>
    simp [ht, filterKey_deleteParam_ne _ _ _ h₂,
      filterKey_setParam_ne _ _ _ _ h₂, filterKey_setParam_ne _ _ _ _ h₁]

/-- Witness for C4 at a concrete third parameter `sort`. -/
theorem C4_frame_witness :
    ("sort" : String) ≠ "page" ∧ ("sort" : String) ≠ "query" ∧
    filterKey (handleSearchParams [("sort", "asc")] "lee") "sort" =
      filterKey [("sort", "asc")] "sort" :=
  ⟨by decide, by decide,
    C4_frame [("sort", "asc")] "lee" "sort" (by decide) (by decide)⟩

/-- C8: committing the same term twice in succession yields the same
QueryState as committing it once. -/
theorem C8_commit_idem (sp : QueryState) (term : String) :
    handleSearchParams (handleSearchParams sp term) term =
      handleSearchParams sp term := by
  by_cases ht : term = ""
  · have hf : filterKey (deleteParam (setParam sp "page" "1") "query") "page"
        = [("page", "1")] := by
      rw [filterKey_deleteParam_ne _ _ _ (by decide : ("page" : String) ≠ "query"),
        filterKey_setParam_self]
    simp only [handleSearchParams, if_pos ht]
    rw [setParam_of_filterKey_single _ _ _ hf, deleteParam_idem]
  · have hf : filterKey (setParam (setParam sp "page" "1") "query" term) "page"
        = [("page", "1")] := by
      rw [filterKey_setParam_ne _ _ _ _ (by decide : ("page" : String) ≠ "query"),
        filterKey_setParam_self]
    simp only [handleSearchParams, if_neg ht]
    rw [setParam_of_filterKey_single _ _ _ hf, setParam_idem]

/-- C3: when every gap between consecutive keystrokes is strictly below
the 300 ms quiescence window, exactly one commit fires, 300 ms after the
final keystroke, carrying the final typed value. -/
theorem C3_debounce_coalesce (es : List (Nat × String)) :
    ∀ (t : Nat) (v : String), rapid es = true → es.getLast? = some (t, v) →
      debounceCommits es = [(t + debounceMs, v)] := by
  induction es with
  | nil => intro t v _ hl; simp at hl
  | cons a rest ih =>
    obtain ⟨t₀, v₀⟩ := a
    cases rest with
    | nil =>
      intro t v _ hl
      simp [List.getLast?] at hl
      obtain ⟨rfl, rfl⟩ := hl
      rfl
    | cons b rest₁ =>
      obtain ⟨t₁, v₁⟩ := b
      intro t v hr hl
      have hgaps : t₁ < t₀ + debounceMs ∧ rapid ((t₁, v₁) :: rest₁) = true := by
        simpa [rapid] using hr
      have hnot : ¬ (t₀ + debounceMs ≤ t₁) := not_le.mpr hgaps.1
      have hl₁ : ((t₁, v₁) :: rest₁).getLast? = some (t, v) := by
        simpa using hl
      rw [show debounceCommits ((t₀, v₀) :: (t₁, v₁) :: rest₁)
          = debounceCommits ((t₁, v₁) :: rest₁) from by
        simp [debounceCommits, hnot]]
      exact ih t v hgaps.2 hl₁

/-- Witness for C3: three keystrokes 100 and 150 ms apart coalesce into a
single commit 300 ms after the last one, with the final value. -/
theorem C3_debounce_coalesce_witness :
    debounceCommits [(0, "l"), (100, "le"), (250, "lee")] = [(550, "lee")] :=
  C3_debounce_coalesce [(0, "l"), (100, "le"), (250, "lee")] 250 "lee"
    (by decide) (by decide)

/-- C5: on mount with `query = v` present, the rendered input's initial
displayed text is `v`, and the input carries no controlled `value`
attribute, so the component never overwrites the displayed text after
mount (uncontrolled input). -/
theorem C5_mount_query (ph : String) (sp : QueryState) (v : String)
    (h : getParam sp "query" = some v) :
    (Search ph sp).defaultValue = some v ∧
    initialDisplayed (Search ph sp) = v ∧
    (Search ph sp).value = none := by
  simp [Search, initialDisplayed, h]

/-- Witness for C5 at `query=lee`. -/
theorem C5_mount_query_witness :
    getParam [("query", "lee")] "query" = some "lee" ∧
    ((Search "Search invoices" [("query", "lee")]).defaultValue = some "lee" ∧
      initialDisplayed (Search "Search invoices" [("query", "lee")]) = "lee" ∧
      (Search "Search invoices" [("query", "lee")]).value = none) :=
  ⟨by decide, C5_mount_query "Search invoices" [("query", "lee")] "lee" (by decide)⟩

/-- C6: from the empty QueryState, typing `lee` and pausing past the
quiescence window commits `{page: 1, query: lee}`; clearing the input and
pausing again commits `{page: 1}` with no `query` key. -/
theorem C6_end_to_end :
    debounceCommits [(0, "l"), (100, "le"), (200, "lee")] = [(500, "lee")] ∧
    handleSearchParams [] "lee" = [("page", "1"), ("query", "lee")] ∧
    handleSearchParams [("page", "1"), ("query", "lee")] "" = [("page", "1")] := by
  refine ⟨rfl, rfl, rfl⟩

/-- C7: every commit is a `replace` (never a `push`) of the current path
followed by `?` and the serialized new QueryState; applying it to a
non-empty history stack keeps the stack length unchanged and makes the new
address current. -/
theorem C7_replace_current_path (pathname : String) (sp : QueryState)
    (term : String) (hist : List String) (hh : hist ≠ []) :
    handleSearch pathname sp term =
      NavAction.replace
        (pathname ++ "?" ++ paramsToString (handleSearchParams sp term)) ∧
    (applyNav (handleSearch pathname sp term) hist).length = hist.length ∧
    (applyNav (handleSearch pathname sp term) hist).head? =
      some (pathname ++ "?" ++ paramsToString (handleSearchParams sp term)) := by
  obtain ⟨u, rest, rfl⟩ := List.exists_cons_of_ne_nil hh
  exact ⟨rfl, by simp [handleSearch, applyNav], by simp [handleSearch, applyNav]⟩

/-- Witness for C7 on a concrete path, prior state and history stack. -/
theorem C7_replace_current_path_witness :
    handleSearch "/dashboard/invoices" [("page", "2")] "lee" =
      NavAction.replace ("/dashboard/invoices" ++ "?"
        ++ paramsToString (handleSearchParams [("page", "2")] "lee")) ∧
    (applyNav (handleSearch "/dashboard/invoices" [("page", "2")] "lee")
        ["/dashboard/invoices?page=2"]).length
      = (["/dashboard/invoices?page=2"] : List String).length ∧
    (applyNav (handleSearch "/dashboard/invoices" [("page", "2")] "lee")
        ["/dashboard/invoices?page=2"]).head?
      = some ("/dashboard/invoices" ++ "?"
        ++ paramsToString (handleSearchParams [("page", "2")] "lee")) :=
  C7_replace_current_path "/dashboard/invoices" [("page", "2")] "lee"
    ["/dashboard/invoices?page=2"] (by decide)

/-- C9: on mount with no `query` parameter present, the rendered input's
`defaultValue` is absent (undefined) and its initial displayed text is the
empty string. -/
theorem C9_mount_no_query (ph : String) (sp : QueryState)
    (h : getParam sp "query" = none) :
    (Search ph sp).defaultValue = none ∧
    initialDisplayed (Search ph sp) = "" := by
  simp [Search, initialDisplayed, h]

/-- Witness for C9 at the empty QueryState. -/
theorem C9_mount_no_query_witness :
    getParam [] "query" = none ∧
    ((Search "Search invoices" []).defaultValue = none ∧
      initialDisplayed (Search "Search invoices" []) = "") :=
  ⟨rfl, C9_mount_no_query "Search invoices" [] rfl⟩

/-- C10: the commit is a deterministic function of the committed term, the
prior QueryState and the current path: two invocations with equal inputs
request identical navigation actions. -/
theorem C10_deterministic (p₁ p₂ : String) (sp₁ sp₂ : QueryState)
    (t₁ t₂ : String) (hp : p₁ = p₂) (hsp : sp₁ = sp₂) (ht : t₁ = t₂) :
    handleSearch p₁ sp₁ t₁ = handleSearch p₂ sp₂ t₂ := by
  rw [hp, hsp, ht]

/-- Witness for C10 on concrete equal inputs. -/
theorem C10_deterministic_witness :
    handleSearch "/dashboard/invoices" [("page", "3")] "lee" =
      handleSearch "/dashboard/invoices" [("page", "3")] "lee" :=
  C10_deterministic "/dashboard/invoices" "/dashboard/invoices"
    [("page", "3")] [("page", "3")] "lee" "lee" rfl rfl rfl

end SearchBox
